import Mathlib

/-!
Verification development for the second_brain note-taking backend.

The definitions below are shallow embeddings of the Python services in
`src/backend`:

* `backend/services/text_service.py` — text normalisation and validation;
* `backend/services/classification_service.py` — keyword fallback classifier;
* `backend/services/embedding_service.py` — ChromaDB wrapper (vector index);
* `backend/services/search_service.py` — retrieval coordinator;
* `backend/schemas/query.py` — pydantic request validation;
* `backend/api/notes.py` — note creation pipelines.

External collaborators (the relational database, the ChromaDB backend, the
Gemini LLM, the transcription service) are modelled as explicit values or
function parameters: a database is a list of note records, the vector
backend is a function from the request parameters to an optional raw query
result (with `none` standing for the backend raising an exception), and
LLM/transcription outcomes are passed in as parameters.  Machine floats
(embedding coordinates, cosine distances) are modelled as rationals; no
claim below depends on rounding behaviour.
-/

/-! ## Generic character-list helpers

Python string operations used by the services (`in`, `str.split()`,
`str.strip()`, slicing) are modelled on `List Char` via `String.data`.
-/

/-- `startsWithChars p l` is true when `p` is an initial segment of `l`. -/
def startsWithChars : List Char → List Char → Bool
  | [], _ => true
  | _ :: _, [] => false
  | a :: as, b :: bs => a == b && startsWithChars as bs

/-- `subListChars p l` is true when `p` occurs contiguously inside `l`:
the model of the Python substring test `p in l`. -/
def subListChars (p : List Char) : List Char → Bool
  | [] => p.isEmpty
  | b :: bs => startsWithChars p (b :: bs) || subListChars p bs

/-- Python `needle in hay` on strings (contiguous substring test). -/
def pyIn (needle hay : String) : Bool :=
  subListChars needle.data hay.data

/-- Python `str.lower()` (characterwise lowercasing; all texts involved
are ASCII). -/
def pyLower (s : String) : String :=
  String.mk (s.data.map Char.toLower)

/-- Remove trailing characters satisfying `Char.isWhitespace`
(the tail half of Python `str.strip()`), in a recursion-friendly form. -/
def trimRightChars : List Char → List Char
  | [] => []
  | a :: l =>
    match trimRightChars l with
    | [] => if a.isWhitespace then [] else [a]
    | b :: m => a :: b :: m

/-- Python `str.strip()`: drop leading and trailing whitespace. -/
def stripChars (l : List Char) : List Char :=
  trimRightChars (l.dropWhile Char.isWhitespace)

/-- Python `str.strip()` lifted to `String`. -/
def pyStrip (s : String) : String :=
  String.mk (stripChars s.data)

/-- Helper for Python `str.split()` (split on whitespace runs, dropping
empty pieces): `acc` holds the characters of the word currently being
read, in reverse. -/
def pyWordsAux : List Char → List Char → List (List Char)
  | [], acc => if acc.isEmpty then [] else [acc.reverse]
  | c :: cs, acc =>
    if c.isWhitespace then
      if acc.isEmpty then pyWordsAux cs [] else acc.reverse :: pyWordsAux cs []
    else
      pyWordsAux cs (c :: acc)

/-- Python `text.split()` with no separator argument. -/
def pyWords (s : String) : List String :=
  (pyWordsAux s.data []).map String.mk

/-! ## TextService (`backend/services/text_service.py`) -/

/-- `TextService._clean_text`: `" ".join(text.split())` followed by
`.strip()`. -/
def cleanText (text : String) : String :=
  pyStrip (String.intercalate " " (pyWords text))

/-- `TextService.validate_text`: returns `(is_valid, error_message)`.
The three checks run in source order: emptiness (`not text or
len(text.strip()) == 0`), minimum length 3, maximum length 100000. -/
def validateText (text : String) : Bool × Option String :=
  if text.data.isEmpty || (pyStrip text).length == 0 then
    (false, some "Text cannot be empty")
  else if text.length < 3 then
    (false, some "Text is too short (minimum 3 characters)")
  else if text.length > 100000 then
    (false, some "Text is too long (maximum 100,000 characters)")
  else
    (true, none)

/-- `TextService.process_text_input`, restricted to its text payload: clean
the raw text, validate the cleaned text, raise `ValueError` (modelled as
`Except.error`) when invalid, otherwise return the cleaned text (the value
stored in the result dictionary under the key `text`). -/
def processTextInput (text : String) : Except String String :=
  let cleaned := cleanText text
  let v := validateText cleaned
  if v.1 then .ok cleaned else .error (v.2.getD "")

/-! ## ClassificationService fallback
(`backend/services/classification_service.py`) -/

/-- One actionable item, as produced by the classifier
(`{task, deadline, priority}` dictionaries in the source). -/
structure ActionItem where
  task : String
  deadline : Option String
  priority : String
deriving DecidableEq

/-- `backend/schemas/note.py :: NoteClassification`.  The pydantic model
makes `title`, `summary` and `primary_tag` required and defaults the rest;
a constructed value always carries every field, which the structure type
reflects.  `key_entities` is a string-keyed map of string lists, modelled
as an association list. -/
structure NoteClassification where
  title : String
  summary : String
  primaryTag : String
  secondaryTags : List String
  keyEntities : List (String × List String)
  actionableItems : List ActionItem
  topics : List String
  sentiment : String
  priority : String
deriving DecidableEq

/-- The fixed category keyword table of
`ClassificationService._create_fallback_classification`, in source
(dictionary-insertion) order. -/
def categoryKeywords : List (String × List String) :=
  [("Work", ["meeting", "project", "deadline", "client", "email"]),
   ("Personal", ["family", "friend", "home", "birthday"]),
   ("Travel", ["flight", "trip", "airport", "hotel"]),
   ("Ideas", ["idea", "brainstorm", "concept"]),
   ("Projects", ["build", "develop", "launch"]),
   ("Health", ["doctor", "gym", "exercise", "medicine"]),
   ("Learning", ["learn", "study", "course", "tutorial"]),
   ("Finance", ["budget", "expense", "bank", "invoice"]),
   ("Shopping", ["buy", "order", "groceries"])]

/-- Urgency keywords driving `priority = "high"` in the fallback. -/
def urgencyWords : List String := ["urgent", "asap", "immediately", "critical"]

/-- Keywords driving `priority = "low"` in the fallback. -/
def lowWords : List String := ["maybe", "someday"]

/-- Action keywords: presence of any of them yields one synthetic
actionable item in the fallback. -/
def actionKeywords : List String := ["need to", "have to", "must", "should"]

/-- `ClassificationService._create_fallback_classification`: deterministic
keyword classification used whenever the Gemini model is missing, errors,
or returns unparsable output.  First category whose keyword list hits the
lowercased text wins (`break` in the source); default tag is `"Other"`. -/
def createFallbackClassification (text : String) : NoteClassification :=
  let textLower := pyLower text
  let primaryTag :=
    ((categoryKeywords.find? fun ck => ck.2.any fun k => pyIn k textLower).map
      Prod.fst).getD "Other"
  let priority :=
    if urgencyWords.any (fun k => pyIn k textLower) then "high"
    else if lowWords.any (fun k => pyIn k textLower) then "low"
    else "medium"
  let actionableItems :=
    if actionKeywords.any (fun k => pyIn k textLower) then
      [{ task := text.take 100, deadline := none, priority := priority }]
    else []
  { title := text.take 60
    summary := text.take 150
    primaryTag := primaryTag
    secondaryTags := []
    keyEntities := [("people", []), ("places", []), ("dates", []), ("companies", [])]
    actionableItems := actionableItems
    topics := []
    sentiment := "neutral"
    priority := priority }


/-! ## Data model (`backend/models/note.py`)

The SQLAlchemy `Note` row, restricted to the columns the retrieval core
and the note-creation pipeline read or write (Google-Drive sync columns
are collaborator plumbing and are omitted).  Timestamps are modelled as
integers; nullable columns as `Option`. -/

structure Note where
  id : String
  userId : String
  inputType : String
  source : String
  originalText : Option String
  transcription : Option String
  audioUrl : Option String
  audioDurationSeconds : Option Int
  title : Option String
  summary : Option String
  primaryTag : Option String
  secondaryTags : Option (List String)
  keyEntities : Option (List (String × List String))
  actionableItems : Option (List ActionItem)
  topics : Option (List String)
  sentiment : Option String
  priority : Option String
  language : Option String
  embeddingId : Option String
  processingStatus : String
  errorMessage : Option String
  createdAt : Int
deriving DecidableEq

/-! ## Search request schema (`backend/schemas/query.py`) -/

/-- `SearchRequest` pydantic model (field values after parsing). -/
structure SearchRequest where
  query : Option String
  primaryTag : Option String
  source : Option String
  startDate : Option Int
  endDate : Option Int
  page : Int
  pageSize : Int
  useSemanticSearch : Bool
deriving DecidableEq

/-- Pydantic validation of `SearchRequest`: `page` carries `ge=1` and
`page_size` carries `ge=1, le=100`; a violating payload is rejected with a
validation error (fastapi returns 422), it is not coerced. -/
def validateSearchRequest (req : SearchRequest) : Except String SearchRequest :=
  if req.page < 1 then
    .error "page: input should be greater than or equal to 1"
  else if req.pageSize < 1 then
    .error "page_size: input should be greater than or equal to 1"
  else if req.pageSize > 100 then
    .error "page_size: input should be less than or equal to 100"
  else
    .ok req

/-- Python truthiness of an optional string (`None` and `""` are falsy):
used for `if search_request.query:`-style guards in the source. -/
def strTruthy : Option String → Bool
  | none => false
  | some s => s != ""

/-! ## SearchService (`backend/services/search_service.py`) -/

/-- `SearchService._apply_filters`: equality filters on `primary_tag` and
`source` (skipped when the request value is falsy), closed date-range
filters on `created_at`, and the unconditional
`processing_status == "completed"` restriction.  A SQL equality against a
NULL column is not satisfied, hence the `Option` comparison for
`primary_tag`. -/
def applyFilters (req : SearchRequest) (notes : List Note) : List Note :=
  let n1 :=
    match req.primaryTag with
    | some t => if t != "" then notes.filter (fun (n : Note) => n.primaryTag == some t) else notes
    | none => notes
  let n2 :=
    match req.source with
    | some s => if s != "" then n1.filter (fun (n : Note) => n.source == s) else n1
    | none => n1
  let n3 :=
    match req.startDate with
    | some d => n2.filter (fun (n : Note) => d ≤ n.createdAt)
    | none => n2
  let n4 :=
    match req.endDate with
    | some d => n3.filter (fun (n : Note) => n.createdAt ≤ d)
    | none => n3
  n4.filter (fun n => n.processingStatus == "completed")

/-- One disjunct of `SearchService._apply_text_search`:
`column ILIKE '%text%'`, i.e. case-insensitive substring match, false on a
NULL column.  (SQL wildcard characters inside the query text are not given
wildcard meaning here; no claim depends on them.) -/
def iLikeContains (searchText : String) (field : Option String) : Bool :=
  match field with
  | none => false
  | some s => pyIn (pyLower searchText) (pyLower s)

/-- `SearchService._apply_text_search`: OR of the four column matches. -/
def applyTextSearch (searchText : String) (notes : List Note) : List Note :=
  notes.filter fun n =>
    iLikeContains searchText n.title || iLikeContains searchText n.summary ||
    iLikeContains searchText n.originalText || iLikeContains searchText n.transcription

/-- Insert into a list sorted by `created_at` descending (ties keep the
incoming order; the SQL backend leaves tie order unspecified and no claim
depends on it). -/
def insertByCreatedDesc (n : Note) : List Note → List Note
  | [] => [n]
  | m :: ms =>
    if m.createdAt ≤ n.createdAt then n :: m :: ms else m :: insertByCreatedDesc n ms

/-- `ORDER BY created_at DESC` of the relational query. -/
def sortByCreatedDesc (l : List Note) : List Note :=
  l.foldr insertByCreatedDesc []

/-! ## EmbeddingService (`backend/services/embedding_service.py`)

The ChromaDB collection is modelled as an association list from note ID to
entry, in insertion order.  Embedding vectors and cosine distances are
rationals standing in for floats. -/

/-- ChromaDB entry metadata: flat scalar key-value map. -/
abbrev ChromaMetadata := List (String × String)

/-- One vector-index entry: `(embedding, document, metadata)` as stored by
`collection.add`. -/
structure IndexEntry where
  embedding : List ℚ
  document : String
  metadata : ChromaMetadata
deriving DecidableEq

/-- `collection.add` with a single id: ChromaDB rejects a duplicate ID with
a warning and keeps the existing entry unchanged; a fresh ID is appended. -/
def chromaAdd (entries : List (String × IndexEntry)) (id : String)
    (e : IndexEntry) : List (String × IndexEntry) :=
  if entries.any (fun p => p.1 == id) then entries else entries ++ [(id, e)]

/-- `collection.delete` with a single id: drop every entry with that ID;
deleting an absent ID is a no-op. -/
def chromaDelete (entries : List (String × IndexEntry)) (id : String) :
    List (String × IndexEntry) :=
  entries.filter (fun p => p.1 != id)

/-- `EmbeddingService.store_note_embedding`: embed the text
(`generate_embedding`, modelled by the deterministic function `embed`) and
add `(note_id, embedding, text, metadata)` to the collection. -/
def storeNoteEmbedding (embed : String → List ℚ)
    (entries : List (String × IndexEntry)) (noteId text : String)
    (metadata : ChromaMetadata) : List (String × IndexEntry) :=
  chromaAdd entries noteId { embedding := embed text, document := text, metadata := metadata }

/-- `EmbeddingService.update_note_embedding`: delete the old entry, then
store the new one. -/
def updateNoteEmbedding (embed : String → List ℚ)
    (entries : List (String × IndexEntry)) (noteId text : String)
    (metadata : ChromaMetadata) : List (String × IndexEntry) :=
  storeNoteEmbedding embed (chromaDelete entries noteId) noteId text metadata

/-- The raw dictionary returned by `collection.query`: nested lists indexed
first by query (the service always sends exactly one query embedding), the
`distances` key possibly absent. -/
structure ChromaQueryResult where
  ids : List (List String)
  documents : List (List String)
  metadatas : List (List ChromaMetadata)
  distances : Option (List (List ℚ))
deriving DecidableEq

/-- One formatted entry of `EmbeddingService.search_similar_notes`. -/
structure SimilarNote where
  noteId : String
  text : String
  metadata : ChromaMetadata
  distance : Option ℚ
  similarity : Option ℚ
deriving DecidableEq

/-- Build the `i`-th result dictionary of `search_similar_notes`; `none`
models an `IndexError` while indexing the nested lists (which the
surrounding `except` turns into an empty overall result). -/
def formatSimilarNote (r : ChromaQueryResult) (i : Nat) : Option SimilarNote :=
  match r.ids.head?.bind (fun l => l.get? i),
        r.documents.head?.bind (fun l => l.get? i),
        r.metadatas.head?.bind (fun l => l.get? i) with
  | some nid, some doc, some md =>
    match r.distances with
    | none => some { noteId := nid, text := doc, metadata := md, distance := none, similarity := none }
    | some ds =>
      match ds.head?.bind (fun l => l.get? i) with
      | some d => some { noteId := nid, text := doc, metadata := md, distance := some d, similarity := some (1 - d) }
      | none => none
  | _, _, _ => none

/-- `EmbeddingService.search_similar_notes`.  The embedding backend call
(query embedding plus `collection.query`) is summarised by `backendResult`:
`none` models the call raising (model not loaded, backend unreachable), and
`some r` models it returning the raw dictionary `r`.  Every exception is
caught and turned into the empty list. -/
def searchSimilarNotes (backendResult : Option ChromaQueryResult) : List SimilarNote :=
  match backendResult with
  | none => []
  | some r =>
    match r.ids.head? with
    | none => []
    | some ids0 =>
      match (List.range ids0.length).mapM (formatSimilarNote r) with
      | none => []
      | some out => out

/-- The metadata filter `_semantic_search` sends to the vector index:
always the owner, plus `primary_tag` when the request carries a truthy
one. -/
def semanticFilterMetadata (userId : String) (req : SearchRequest) : ChromaMetadata :=
  match req.primaryTag with
  | some t => if t != "" then [("user_id", userId), ("primary_tag", t)] else [("user_id", userId)]
  | none => [("user_id", userId)]

/-- `SearchService._semantic_search`.  The vector backend is a function
from `(n_results, filter_metadata)` to the optional raw query result (as in
`searchSimilarNotes`).  Returned IDs are re-hydrated against the relational
store `db` through a dictionary keyed by note ID (later rows win, as in the
Python dict comprehension; the SELECT itself has no ORDER BY, but under
unique IDs the outcome does not depend on row order), the vector-search
order is preserved, and the ordered list is sliced by
`offset = (page - 1) * page_size`.  No relational filter is re-applied.
Any exception is caught and turned into the empty list; the only fallible
call, `search_similar_notes`, already returns lists. -/
def semanticSearch (db : List Note) (userId : String) (req : SearchRequest)
    (backend : Int → ChromaMetadata → Option ChromaQueryResult) : List Note :=
  let similar := searchSimilarNotes (backend (req.pageSize * 2) (semanticFilterMetadata userId req))
  let noteIds := similar.map (fun s => s.noteId)
  if noteIds.isEmpty then []
  else
    let notes := db.filter (fun n => noteIds.contains n.id)
    let sortedNotes := noteIds.filterMap (fun nid => notes.reverse.find? (fun n => n.id == nid))
    let offset := ((req.page - 1) * req.pageSize).toNat
    (sortedNotes.drop offset).take req.pageSize.toNat

/-- `SearchService.search_notes`: owner scope, `_apply_filters`, relational
`total_count`, keyword text filter only on the non-semantic path, sort by
`created_at` descending, offset/limit pagination, and — when the request
asks for semantic search with a truthy query — replacement of the page by
the `_semantic_search` result. -/
def searchNotes (db : List Note) (req : SearchRequest) (userId : String)
    (backend : Int → ChromaMetadata → Option ChromaQueryResult) :
    List Note × Nat :=
  let base := db.filter (fun n => n.userId == userId)
  let filtered := applyFilters req base
  let totalCount := filtered.length
  let afterText :=
    if strTruthy req.query && !req.useSemanticSearch then
      applyTextSearch (req.query.getD "") filtered
    else filtered
  let sorted := sortByCreatedDesc afterText
  let offset := ((req.page - 1) * req.pageSize).toNat
  let paged := (sorted.drop offset).take req.pageSize.toNat
  let notes :=
    if strTruthy req.query && req.useSemanticSearch then
      semanticSearch db userId req backend
    else paged
  (notes, totalCount)

/-! ## Note creation (`backend/api/notes.py`)

`create_text_note` and `create_audio_note` are modelled from the point the
request payload is in hand.  Database-generated values (the UUID and the
creation timestamp) are parameters.  The classification call is a total
function parameter: `ClassificationService.classify_note` catches every
exception and falls back to `_create_fallback_classification`, so it never
raises.  The embedding store and the transcription call can raise, which is
what `EmbedOutcome` and the `Except` parameter model.  Alongside the final
note row, the model records which text snapshot was passed to
classification and which to embedding storage. -/

/-- Outcome of `embedding_service.store_note_embedding` as observed by the
caller: normal return, or an exception with its message. -/
inductive EmbedOutcome where
  | ok
  | fail (msg : String)
deriving DecidableEq

/-- Result of a note-creation pipeline: the committed note row plus the
text snapshots handed to `classify_note` and `store_note_embedding`
(`none` when the corresponding call was never reached). -/
structure NoteTrace where
  note : Note
  classifiedText : Option String
  embeddedText : Option String
deriving DecidableEq

/-- A fresh note row before any processing-specific fields are filled in. -/
def blankNote (noteId : String) (createdAt : Int) (userId inputType source : String) : Note :=
  { id := noteId
    userId := userId
    inputType := inputType
    source := source
    originalText := none
    transcription := none
    audioUrl := none
    audioDurationSeconds := none
    title := none
    summary := none
    primaryTag := none
    secondaryTags := none
    keyEntities := none
    actionableItems := none
    topics := none
    sentiment := none
    priority := none
    language := some "en"
    embeddingId := none
    processingStatus := "processing"
    errorMessage := none
    createdAt := createdAt }

/-- Copy a classification result onto a note row and mark it completed
(the field-assignment block shared by both creation endpoints). -/
def applyClassification (n : Note) (c : NoteClassification) : Note :=
  { n with
    title := some c.title
    summary := some c.summary
    primaryTag := some c.primaryTag
    secondaryTags := some c.secondaryTags
    keyEntities := some c.keyEntities
    actionableItems := some c.actionableItems
    topics := some c.topics
    sentiment := some c.sentiment
    priority := some c.priority
    processingStatus := "completed" }

/-- `create_text_note`: process the raw text (a `ValueError` aborts the
request before any note row is committed, modelled as `Except.error`),
commit a `processing` row, then inside one `try` block classify, mark
completed, and store the embedding; any exception in that block flips the
row to `failed` with the message recorded.  The classification call and
the embedding store both receive the processed text. -/
def createTextNote (classify : String → NoteClassification)
    (embedOutcome : EmbedOutcome) (noteId : String) (createdAt : Int)
    (userId source rawText : String) : Except String NoteTrace :=
  match processTextInput rawText with
  | .error e => .error e
  | .ok cleaned =>
    let base := { blankNote noteId createdAt userId "text" source with originalText := some cleaned }
    let classified := applyClassification base (classify cleaned)
    match embedOutcome with
    | .ok =>
      .ok { note := classified, classifiedText := some cleaned, embeddedText := some cleaned }
    | .fail msg =>
      .ok { note := { classified with processingStatus := "failed", errorMessage := some msg }
            classifiedText := some cleaned
            embeddedText := some cleaned }

/-- `create_audio_note`, from the point a `processing` row with the audio
path and duration has been committed (upload validation failures abort
beforehand and never create a row).  `transcribeOutcome` is the
transcription call: on exception the row flips to `failed` before
classification is reached; on success its text is handed to both
`classify_note` and `store_note_embedding`, and an embedding failure flips
the completed row to `failed` exactly as in the text path. -/
def createAudioNote (classify : String → NoteClassification)
    (transcribeOutcome : Except String (String × String))
    (embedOutcome : EmbedOutcome) (noteId : String) (createdAt : Int)
    (userId source audioPath : String) (durationSeconds : Int) : NoteTrace :=
  let base := { blankNote noteId createdAt userId "audio" source with
                audioUrl := some audioPath
                audioDurationSeconds := some durationSeconds }
  match transcribeOutcome with
  | .error msg =>
    { note := { base with processingStatus := "failed", errorMessage := some msg }
      classifiedText := none
      embeddedText := none }
  | .ok (text, lang) =>
    let withTrans := { base with transcription := some text, language := some lang }
    let classified := applyClassification withTrans (classify text)
    match embedOutcome with
    | .ok =>
      { note := classified, classifiedText := some text, embeddedText := some text }
    | .fail msg =>
      { note := { classified with processingStatus := "failed", errorMessage := some msg }
        classifiedText := some text
        embeddedText := some text }

/-! ## Concrete instances used by example-level theorems -/

/-- The scenario text fixed by the specification. -/
def teamMeetingText : String := "Team meeting tomorrow at 10 AM to discuss Q4 goals"

/-- A raw `collection.query` answer with zero matches (ChromaDB returns
singleton outer lists holding empty inner lists). -/
def chromaZeroMatches : ChromaQueryResult :=
  { ids := [[]], documents := [[]], metadatas := [[]], distances := some [[]] }

/-- A request whose `page` violates the `ge=1` constraint. -/
def pageZeroRequest : SearchRequest :=
  { query := some "x", primaryTag := none, source := none, startDate := none,
    endDate := none, page := 0, pageSize := 10, useSemanticSearch := false }

/-- A completed, keyword-searchable note owned by user `u`. -/
def exCompletedNote : Note :=
  { id := "n1"
    userId := "u"
    inputType := "text"
    source := "web"
    originalText := some "a note about xylophones"
    transcription := none
    audioUrl := none
    audioDurationSeconds := none
    title := some "xylophone note"
    summary := some "about xylophones"
    primaryTag := some "Other"
    secondaryTags := some []
    keyEntities := some []
    actionableItems := some []
    topics := some []
    sentiment := some "neutral"
    priority := some "medium"
    language := some "en"
    embeddingId := some "n1"
    processingStatus := "completed"
    errorMessage := none
    createdAt := 0 }

/-- Semantic-search request with a non-empty query and no filters. -/
def semReq : SearchRequest :=
  { query := some "x", primaryTag := none, source := none, startDate := none,
    endDate := none, page := 1, pageSize := 10, useSemanticSearch := true }

/-- The same request on the keyword path. -/
def kwReq : SearchRequest := { semReq with useSemanticSearch := false }

/-- Semantic request whose date filter excludes `exOldNote`. -/
def staleReq : SearchRequest :=
  { query := some "x", primaryTag := none, source := none, startDate := some 100,
    endDate := none, page := 1, pageSize := 10, useSemanticSearch := true }

/-- A completed note created before `staleReq.startDate`. -/
def exOldNote : Note := { exCompletedNote with id := "n2", createdAt := 50 }

/-- A vector backend that returns `exOldNote` as sole nearest neighbour. -/
def staleBackend : Int → ChromaMetadata → Option ChromaQueryResult := fun _ _ =>
  some { ids := [["n2"]]
         documents := [["a note about xylophones"]]
         metadatas := [[[("user_id", "u")]]]
         distances := some [[0]] }

/-! ## Helper lemmas -/

theorem dropWhile_self_idem (p : Char → Bool) (l : List Char) :
    List.dropWhile p (List.dropWhile p l) = List.dropWhile p l := by
  induction l with
  | nil => rfl
  | cons a l ih =>
    by_cases h : p a = true
    · simp [List.dropWhile_cons, h, ih]
    · simp [List.dropWhile_cons, h]

theorem trimRightChars_cons_eq (a : Char) {l : List Char} {b : Char} {m : List Char}
    (h : trimRightChars l = b :: m) : trimRightChars (a :: l) = a :: b :: m := by
  simp [trimRightChars, h]

theorem trimRightChars_idem (l : List Char) :
    trimRightChars (trimRightChars l) = trimRightChars l := by
  induction l with
  | nil => rfl
  | cons a l ih =>
    cases h : trimRightChars l with
    | nil =>
      by_cases ha : a.isWhitespace = true
      · simp [trimRightChars, h, ha]
      · simp [trimRightChars, h, ha]
    | cons b m =>
      have h2 : trimRightChars (b :: m) = b :: m := h ▸ ih
      rw [trimRightChars_cons_eq a h]
      exact trimRightChars_cons_eq a h2

theorem dropWhile_trimRightChars_self {l : List Char}
    (h : l.dropWhile Char.isWhitespace = l) :
    (trimRightChars l).dropWhile Char.isWhitespace = trimRightChars l := by
  cases l with
  | nil => rfl
  | cons a l =>
    have ha : a.isWhitespace = false := by
      by_cases hw : a.isWhitespace = true
      · exfalso
        rw [List.dropWhile_cons, if_pos hw] at h
        have hle : (List.dropWhile Char.isWhitespace l).length ≤ l.length :=
          (List.dropWhile_suffix Char.isWhitespace).sublist.length_le
        rw [h] at hle
        simp at hle
      · simpa using hw
    cases h2 : trimRightChars l with
    | nil => simp [trimRightChars, h2, ha, List.dropWhile_cons]
    | cons b m => simp [trimRightChars, h2, ha, List.dropWhile_cons]

theorem stripChars_idem (l : List Char) : stripChars (stripChars l) = stripChars l := by
  unfold stripChars
  rw [dropWhile_trimRightChars_self (dropWhile_self_idem _ _), trimRightChars_idem]

theorem pyStrip_idem (s : String) : pyStrip (pyStrip s) = pyStrip s :=
  congrArg String.mk (stripChars_idem s.data)

theorem pyStrip_cleanText (t : String) : pyStrip (cleanText t) = cleanText t := by
  unfold cleanText
  exact pyStrip_idem _

/-! ## Claim C10 — text input normalisation and validation -/

theorem processTextInput_eq (t : String) :
    processTextInput t =
      if (validateText (cleanText t)).1 then .ok (cleanText t)
      else .error ((validateText (cleanText t)).2.getD "") := rfl

theorem validateText_true_iff (c : String) (hs : pyStrip c = c) :
    (validateText c).1 = true ↔ 3 ≤ c.length ∧ c.length ≤ 100000 := by
  unfold validateText
  rw [hs]
  by_cases h0 : c.data.isEmpty = true
  · have hL : c.length = 0 := by
      simp [String.length, List.isEmpty_iff.1 h0]
    simp [h0]
    omega
  · have hlen0 : c.length ≠ 0 := by
      intro hc
      exact h0 (by simp [List.isEmpty_iff, List.length_eq_zero.1 hc])
    have hbeq : (c.length == 0) = false := by simpa using hlen0
    simp only [h0, hbeq]
    simp only [Bool.or_self, Bool.false_eq_true, if_false]
    split_ifs with h3 h100 <;> simp <;> omega

/-- C10: text-note input processing first normalises whitespace
(`cleanText` is `" ".join(text.split())` plus strip), and then raises
`ValueError` exactly when the normalised text is empty or shorter than 3
characters or longer than 100000 characters; otherwise it returns the
normalised text itself.  The first conjunct is the exact success
characterisation, the second says the outcome is always either that
success value or an error. -/
theorem process_text_input_validation (text : String) :
    (processTextInput text = .ok (cleanText text) ↔
      3 ≤ (cleanText text).length ∧ (cleanText text).length ≤ 100000) ∧
    (processTextInput text = .ok (cleanText text) ∨
      ∃ msg, processTextInput text = .error msg) := by
  have hs := pyStrip_cleanText text
  have hiff := validateText_true_iff (cleanText text) hs
  rw [processTextInput_eq]
  by_cases hv : (validateText (cleanText text)).1 = true
  · rw [if_pos hv]
    exact ⟨⟨fun _ => hiff.1 hv, fun _ => rfl⟩, Or.inl rfl⟩
  · rw [if_neg hv]
    constructor
    · constructor
      · intro h
        exact Except.noConfusion h
      · intro hb
        exact absurd (hiff.2 hb) hv
    · exact Or.inr ⟨_, rfl⟩

/-! ## Claim C5 — scenario text under fallback classification -/

set_option maxRecDepth 8192 in
/-- C5 counterexample: on the fixed scenario text the fallback classifier
does produce `primary_tag = "Work"`, but its `actionable_items` list is
empty — none of the action keywords (`need to`, `have to`, `must`,
`should`) occurs in the text — so the claimed single medium-priority
actionable item does not exist. -/
theorem team_meeting_fallback_no_actionable_item :
    (createFallbackClassification teamMeetingText).actionableItems = [] ∧
    ¬ (createFallbackClassification teamMeetingText).actionableItems.length = 1 := by
  constructor
  · decide
  · decide

set_option maxRecDepth 8192 in
/-- C5 amended: the scenario text yields `primary_tag = "Work"` (keyword
`meeting` hits the Work bucket) and overall `priority = "medium"` (no
urgency keyword), but an empty `actionable_items` list, because no action
keyword occurs in the text. -/
theorem team_meeting_fallback_classification :
    (createFallbackClassification teamMeetingText).primaryTag = "Work" ∧
    (createFallbackClassification teamMeetingText).priority = "medium" ∧
    (createFallbackClassification teamMeetingText).actionableItems = [] := by
  refine ⟨?_, ?_, ?_⟩ <;> decide

/-! ## Claim C6 — fallback classification is schema-complete -/

set_option maxRecDepth 8192 in
/-- C6: for every input text the fallback classification is
schema-complete: every field of the classification schema is populated,
the four entity buckets (`people`, `places`, `dates`, `companies`) are all
present with (empty) list values — never missing or null — and the
enumerated fields hold values from their enumerations. -/
theorem fallback_classification_schema_complete (text : String) :
    (createFallbackClassification text).keyEntities =
      [("people", []), ("places", []), ("dates", []), ("companies", [])] ∧
    (createFallbackClassification text).secondaryTags = [] ∧
    (createFallbackClassification text).topics = [] ∧
    (createFallbackClassification text).sentiment = "neutral" ∧
    (createFallbackClassification text).title = text.take 60 ∧
    (createFallbackClassification text).summary = text.take 150 ∧
    ((createFallbackClassification text).priority = "high" ∨
      (createFallbackClassification text).priority = "low" ∨
      (createFallbackClassification text).priority = "medium") ∧
    ((createFallbackClassification text).actionableItems.all
      (fun a => a.priority == (createFallbackClassification text).priority &&
        a.deadline == none)) = true := by
  by_cases h1 : urgencyWords.any (fun k => pyIn k (pyLower text)) = true <;>
    by_cases h2 : lowWords.any (fun k => pyIn k (pyLower text)) = true <;>
      by_cases h3 : actionKeywords.any (fun k => pyIn k (pyLower text)) = true <;>
        simp [createFallbackClassification, h1, h2, h3]

/-! ## Claim C2 — vector index failure signalling -/

/-- C2 counterexample: when the vector backend raises,
`search_similar_notes` returns the very same value — the empty list — that
it returns for a legitimate zero-match query, so no "index unavailable"
signal distinguishable from an empty result exists. -/
theorem index_unavailable_indistinguishable_from_empty :
    searchSimilarNotes none = searchSimilarNotes (some chromaZeroMatches) ∧
    searchSimilarNotes none = [] :=
  ⟨rfl, rfl⟩

/-- C2 amended: when the vector backend is unreachable or the similarity
query fails, `search_similar_notes` catches the exception and returns the
empty list; every zero-match answer also yields the empty list, so the
failure case is not distinguishable from "legitimately zero matches". -/
theorem search_similar_notes_failure_returns_empty (r : ChromaQueryResult)
    (hz : r.ids = [[]]) :
    searchSimilarNotes none = [] ∧ searchSimilarNotes (some r) = searchSimilarNotes none := by
  constructor
  · rfl
  · simp [searchSimilarNotes, hz, List.mapM, List.mapM.loop]

/-- Witness for `search_similar_notes_failure_returns_empty` at the
concrete zero-match answer. -/
theorem search_similar_notes_failure_returns_empty_witness :
    chromaZeroMatches.ids = [[]] ∧
    (searchSimilarNotes none = [] ∧
      searchSimilarNotes (some chromaZeroMatches) = searchSimilarNotes none) :=
  ⟨rfl, search_similar_notes_failure_returns_empty chromaZeroMatches rfl⟩

/-! ## Claim C7 — page bounds are rejected, not clamped -/

/-- C7 counterexample: a request with `page = 0` is rejected by the
pydantic schema with a validation error; the pipeline never clamps it to 1
and never produces a normal result for it. -/
theorem page_zero_rejected_not_clamped :
    (validateSearchRequest pageZeroRequest).toOption = none ∧
    validateSearchRequest pageZeroRequest =
      .error "page: input should be greater than or equal to 1" :=
  ⟨rfl, rfl⟩

/-- C7 amended: requests with `page < 1` or `page_size < 1` (or
`page_size > 100`) are rejected at the schema boundary with a validation
error rather than clamped; a request is accepted — and passed through
unchanged — exactly when `1 ≤ page`, `1 ≤ page_size` and
`page_size ≤ 100`. -/
theorem search_request_validation_bounds (req : SearchRequest) :
    ((validateSearchRequest req).toOption = some req ↔
      1 ≤ req.page ∧ 1 ≤ req.pageSize ∧ req.pageSize ≤ 100) ∧
    ((validateSearchRequest req).toOption = some req ∨
      ∃ msg, validateSearchRequest req = .error msg) := by
  unfold validateSearchRequest
  split_ifs with h1 h2 h3 <;>
    constructor <;>
    simp [Except.toOption] <;>
    omega

/-! ## Claim C8 — idempotent vector-index writes -/

theorem chromaAdd_self_idem (entries : List (String × IndexEntry)) (id : String)
    (e : IndexEntry) : chromaAdd (chromaAdd entries id e) id e = chromaAdd entries id e := by
  unfold chromaAdd
  by_cases h : entries.any (fun p => p.1 == id) = true
  · simp [h]
  · simp [h, List.any_append]

theorem chromaDelete_no_id (entries : List (String × IndexEntry)) (id : String) :
    (chromaDelete entries id).any (fun p => p.1 == id) = false := by
  rw [Bool.eq_false_iff]
  intro h
  obtain ⟨p, hp, hpid⟩ := List.any_eq_true.1 h
  have := (List.mem_filter.1 hp).2
  simp [bne] at this
  simp [this] at hpid

theorem chromaDelete_delete_add (entries : List (String × IndexEntry)) (id : String)
    (e : IndexEntry) :
    chromaDelete (chromaAdd (chromaDelete entries id) id e) id = chromaDelete entries id := by
  rw [show chromaAdd (chromaDelete entries id) id e = chromaDelete entries id ++ [(id, e)] by
    unfold chromaAdd
    rw [chromaDelete_no_id]
    simp]
  unfold chromaDelete
  rw [List.filter_append, List.filter_filter]
  simp [Bool.and_self]

/-- C8: storing the same `(id, vector-source text, metadata)` twice leaves
the vector index in the same observable state as storing it once, and the
same holds for the delete-then-store update operation; the second call
neither duplicates the entry nor fails. -/
theorem store_embedding_idempotent (embed : String → List ℚ)
    (entries : List (String × IndexEntry)) (noteId text : String)
    (metadata : ChromaMetadata) :
    storeNoteEmbedding embed (storeNoteEmbedding embed entries noteId text metadata)
        noteId text metadata =
      storeNoteEmbedding embed entries noteId text metadata ∧
    updateNoteEmbedding embed (updateNoteEmbedding embed entries noteId text metadata)
        noteId text metadata =
      updateNoteEmbedding embed entries noteId text metadata := by
  constructor
  · exact chromaAdd_self_idem ..
  · show storeNoteEmbedding embed
      (chromaDelete (updateNoteEmbedding embed entries noteId text metadata) noteId)
      noteId text metadata = updateNoteEmbedding embed entries noteId text metadata
    rw [show chromaDelete (updateNoteEmbedding embed entries noteId text metadata) noteId =
          chromaDelete entries noteId from
        chromaDelete_delete_add entries noteId _]
    rfl

/-! ## Claim C3 — embedding failure flips the note to failed -/

/-- C3 counterexample: a valid text note whose (fallback) classification
succeeds but whose embedding store raises ends with
`processing_status = "failed"`, not `"completed"`. -/
theorem embedding_failure_marks_note_failed_example :
    (createTextNote createFallbackClassification (EmbedOutcome.fail "chroma unavailable")
        "note-1" 0 "user-1" "web" "Buy milk and bread").map
        (fun tr => tr.note.processingStatus) = .ok "failed" ∧
    ("failed" : String) ≠ "completed" := by
  constructor
  · rfl
  · decide

/-- C3 amended: in both creation pipelines, when classification succeeds
but the embedding store raises, the note is flipped to
`processing_status = "failed"` with the error message recorded — it is not
left `"completed"`; the status is `"completed"` exactly when the embedding
store also succeeds. -/
theorem embedding_failure_sets_status_failed :
    (∀ (classify : String → NoteClassification) (msg noteId : String) (createdAt : Int)
        (userId source rawText : String),
      (createTextNote classify (EmbedOutcome.fail msg) noteId createdAt userId source
          rawText).map (fun tr => (tr.note.processingStatus, tr.note.errorMessage)) =
        (processTextInput rawText).map (fun _ => ("failed", some msg))) ∧
    (∀ (classify : String → NoteClassification) (noteId : String) (createdAt : Int)
        (userId source rawText : String),
      (createTextNote classify EmbedOutcome.ok noteId createdAt userId source
          rawText).map (fun tr => tr.note.processingStatus) =
        (processTextInput rawText).map (fun _ => "completed")) ∧
    (∀ (classify : String → NoteClassification) (msg noteId : String) (createdAt : Int)
        (userId source audioPath : String) (durationSeconds : Int) (text lang : String),
      (createAudioNote classify (Except.ok (text, lang)) (EmbedOutcome.fail msg) noteId
          createdAt userId source audioPath durationSeconds).note.processingStatus =
        "failed" ∧
      (createAudioNote classify (Except.ok (text, lang)) EmbedOutcome.ok noteId
          createdAt userId source audioPath durationSeconds).note.processingStatus =
        "completed") := by
  refine ⟨?_, ?_, ?_⟩
  · intro classify msg noteId createdAt userId source rawText
    cases h : processTextInput rawText <;> simp [createTextNote, h, Except.map]
  · intro classify noteId createdAt userId source rawText
    cases h : processTextInput rawText <;>
      simp [createTextNote, h, Except.map, applyClassification]
  · intro classify msg noteId createdAt userId source audioPath durationSeconds text lang
    exact ⟨rfl, rfl⟩

/-! ## Claim C9 — one canonical text snapshot for classify and embed -/

/-- C9: in both creation pipelines the text handed to classification and
the text handed to embedding storage are the same single snapshot — the
processed input text for text notes, the transcription for audio notes;
a note is never classified against one text version and embedded against
another. -/
theorem canonical_text_single_snapshot :
    (∀ (classify : String → NoteClassification) (eo : EmbedOutcome) (noteId : String)
        (createdAt : Int) (userId source rawText : String),
      (createTextNote classify eo noteId createdAt userId source rawText).map
          (fun tr => tr.embeddedText == tr.classifiedText) =
        (processTextInput rawText).map (fun _ => true) ∧
      (createTextNote classify eo noteId createdAt userId source rawText).map
          (fun tr => tr.classifiedText) =
        (processTextInput rawText).map (fun c => some c)) ∧
    (∀ (classify : String → NoteClassification)
        (tro : Except String (String × String)) (eo : EmbedOutcome) (noteId : String)
        (createdAt : Int) (userId source audioPath : String) (durationSeconds : Int),
      (createAudioNote classify tro eo noteId createdAt userId source audioPath
          durationSeconds).embeddedText =
        (createAudioNote classify tro eo noteId createdAt userId source audioPath
          durationSeconds).classifiedText) ∧
    (∀ (classify : String → NoteClassification) (eo : EmbedOutcome) (noteId : String)
        (createdAt : Int) (userId source audioPath : String) (durationSeconds : Int)
        (text lang : String),
      (createAudioNote classify (Except.ok (text, lang)) eo noteId createdAt userId
          source audioPath durationSeconds).classifiedText = some text) := by
  refine ⟨?_, ?_, ?_⟩
  · intro classify eo noteId createdAt userId source rawText
    cases h : processTextInput rawText <;>
      cases eo <;> simp [createTextNote, h, Except.map]
  · intro classify tro eo noteId createdAt userId source audioPath durationSeconds
    cases tro with
    | error msg => rfl
    | ok p =>
      cases p with
      | mk text lang => cases eo <;> rfl
  · intro classify eo noteId createdAt userId source audioPath durationSeconds text lang
    cases eo <;> rfl

/-! ## Claim C4 — semantic re-hydration -/

theorem rehydrate_lookup (db : List Note) (ids : List String) (nid : String)
    (hnd : (db.map (fun n => n.id)).Nodup) (hmem : nid ∈ ids) :
    ((db.filter (fun n => ids.contains n.id)).reverse.find? (fun n => n.id == nid)) =
      db.find? (fun n => n.id == nid) := by
  induction db with
  | nil => rfl
  | cons a db ih =>
    rw [List.map_cons, List.nodup_cons] at hnd
    obtain ⟨ha, hnd⟩ := hnd
    by_cases hka : ids.contains a.id = true
    · have hmema : a.id ∈ ids := by simpa using hka
      have hfc : (a :: db).filter (fun n => ids.contains n.id) =
          a :: db.filter (fun n => ids.contains n.id) := by
        simp [List.filter_cons, hmema]
      rw [hfc, List.reverse_cons, List.find?_append]
      by_cases hq : (a.id == nid) = true
      · have haid : a.id = nid := beq_iff_eq.1 hq
        have hnone : (db.filter (fun n => ids.contains n.id)).reverse.find?
            (fun n => n.id == nid) = none := by
          rw [List.find?_eq_none]
          intro x hx hxq
          have hxdb : x ∈ db := (List.mem_filter.1 (List.mem_reverse.1 hx)).1
          have hxid : x.id = nid := beq_iff_eq.1 hxq
          exact ha (List.mem_map.2 ⟨x, hxdb, by rw [hxid, haid]⟩)
        rw [hnone]
        simp [List.find?_cons, hq]
      · have hq2 : (a.id == nid) = false := by simpa using hq
        have hfa : List.find? (fun n => n.id == nid) [a] = none := by
          simp [List.find?_cons, hq2]
        rw [hfa, Option.or_none, ih hnd]
        simp [List.find?_cons, hq2]
    · have hnmem : a.id ∉ ids := by simpa using hka
      have hfc : (a :: db).filter (fun n => ids.contains n.id) =
          db.filter (fun n => ids.contains n.id) := by
        simp [List.filter_cons, hnmem]
      rw [hfc, ih hnd]
      have hq : (a.id == nid) = false := by
        cases h : (a.id == nid) with
        | false => rfl
        | true =>
          exfalso
          apply hka
          have haid : a.id = nid := beq_iff_eq.1 h
          rw [haid]
          simpa using hmem
      simp [List.find?_cons, hq]

theorem rehydrate_list_eq (db : List Note) (ids : List String)
    (hnd : (db.map (fun n => n.id)).Nodup) :
    ids.filterMap (fun nid =>
        ((db.filter (fun n => ids.contains n.id)).reverse.find? (fun n => n.id == nid))) =
      ids.filterMap (fun nid => db.find? (fun n => n.id == nid)) :=
  List.filterMap_congr (fun nid hmem => rehydrate_lookup db ids nid hnd hmem)

/-- C4 counterexample: the semantic path returns a note that fails the
step-1 filters.  `exOldNote` is older than the request date filter (so the
filtered relational universe is empty), yet because the re-hydration step
only checks existence — it re-applies no owner/status/category/date
filter — the note is returned by the semantic search. -/
theorem semantic_rehydration_keeps_filtered_out_note :
    (searchNotes [exOldNote] staleReq "u" staleBackend).1 = [exOldNote] ∧
    applyFilters staleReq ([exOldNote].filter (fun n => n.userId == "u")) = [] := by
  constructor
  · rfl
  · rfl

/-- C4 amended: on the semantic path every ID returned by the vector index
is re-hydrated from the relational store and dropped exactly when no note
with that ID exists there; no step-1 filter is re-applied (owner and
category scoping happen only through the metadata filter sent to the
index).  Surviving notes keep the vector-search order, and the ordered
list is sliced with offset `(page-1)*page_size`.  Stated for stores with
unique note IDs (the relational primary key). -/
theorem semantic_rehydration_characterisation (db : List Note) (userId : String)
    (req : SearchRequest) (backend : Int → ChromaMetadata → Option ChromaQueryResult)
    (hnd : (db.map (fun n => n.id)).Nodup) :
    semanticSearch db userId req backend =
      (((((searchSimilarNotes
              (backend (req.pageSize * 2) (semanticFilterMetadata userId req))).map
            (fun s => s.noteId)).filterMap
              (fun nid => db.find? (fun n => n.id == nid))).drop
            ((req.page - 1) * req.pageSize).toNat).take req.pageSize.toNat) := by
  unfold semanticSearch
  set ids := (searchSimilarNotes
      (backend (req.pageSize * 2) (semanticFilterMetadata userId req))).map
      (fun s => s.noteId) with hids
  by_cases hempty : ids.isEmpty = true
  · rw [if_pos hempty]
    rw [List.isEmpty_iff.1 hempty]
    simp
  · rw [if_neg hempty]
    show ((ids.filterMap (fun nid =>
        ((db.filter (fun n => ids.contains n.id)).reverse.find?
          (fun n => n.id == nid)))).drop
        ((req.page - 1) * req.pageSize).toNat).take req.pageSize.toNat =
      ((ids.filterMap (fun nid => db.find? (fun n => n.id == nid))).drop
        ((req.page - 1) * req.pageSize).toNat).take req.pageSize.toNat
    rw [rehydrate_list_eq db ids hnd]

/-- Witness for `semantic_rehydration_characterisation` on a concrete
single-note store and stale backend answer. -/
theorem semantic_rehydration_characterisation_witness :
    (([exOldNote].map (fun n => n.id)).Nodup) ∧
    semanticSearch [exOldNote] "u" staleReq staleBackend =
      (((((searchSimilarNotes
              (staleBackend (staleReq.pageSize * 2) (semanticFilterMetadata "u" staleReq))).map
            (fun s => s.noteId)).filterMap
              (fun nid => [exOldNote].find? (fun n => n.id == nid))).drop
            ((staleReq.page - 1) * staleReq.pageSize).toNat).take staleReq.pageSize.toNat) :=
  ⟨by decide, semantic_rehydration_characterisation [exOldNote] "u" staleReq staleBackend
    (by decide)⟩

/-! ## Claim C1 — degradation when the vector index is unavailable -/

/-- C1 counterexample: with the vector backend unavailable, the semantic
search returns the empty list while the keyword search with the same query
and filters returns the matching note, so the two result sets differ. -/
theorem semantic_unavailable_not_keyword_set :
    (searchNotes [exCompletedNote] semReq "u" (fun _ _ => none)).1 = [] ∧
    (searchNotes [exCompletedNote] kwReq "u" (fun _ _ => none)).1 = [exCompletedNote] ∧
    ([] : List Note) ≠ [exCompletedNote] := by
  refine ⟨rfl, rfl, ?_⟩
  intro h
  exact List.noConfusion h

/-- C1 amended: when the vector backend is unavailable (every call
raises), a search with `use_semantic=true` and a truthy query text returns
the empty notes list together with the filtered relational total count —
it does not throw, but it also does not return the keyword-search result
set. -/
theorem semantic_search_unavailable_degrades_to_empty (db : List Note)
    (req : SearchRequest) (userId : String) (hsem : req.useSemanticSearch = true)
    (hq : strTruthy req.query = true) :
    searchNotes db req userId (fun _ _ => none) =
      ([], (applyFilters req (db.filter (fun n => n.userId == userId))).length) := by
  unfold searchNotes semanticSearch
  simp [searchSimilarNotes, hsem, hq]

/-- Witness for `semantic_search_unavailable_degrades_to_empty` on a
concrete store and request. -/
theorem semantic_search_unavailable_degrades_to_empty_witness :
    semReq.useSemanticSearch = true ∧ strTruthy semReq.query = true ∧
    searchNotes [exCompletedNote] semReq "u" (fun _ _ => none) =
      ([], (applyFilters semReq ([exCompletedNote].filter (fun n => n.userId == "u"))).length) :=
  ⟨rfl, rfl, semantic_search_unavailable_degrades_to_empty [exCompletedNote] semReq "u" rfl rfl⟩
